import Mathlib

/-!
Shallow embedding of `src/drivers/everything-presence-one/device.ts`:
the device session lifecycle and entity state-dispatch engine of the
Everything Presence One Homey driver.

JavaScript runtime values that cross the untyped boundary (entity
announcements, state payloads, settings values) are modelled by the
`JsValue` type below.  Numbers are modelled as rationals (the claims do
not depend on floating-point rounding; every number is merely carried
through).  Function-valued properties and `Connection` instances, which
the source only probes for (`typeof x === 'function'`,
`instanceof Connection`), are modelled as opaque leaves.
-/

/-- A JavaScript runtime value as far as the driver inspects it. -/
inductive JsValue where
  | undefined
  | null
  | bool (b : Bool)
  | num (q : ℚ)
  | str (s : String)
  | func
  | connection
  | obj (fields : List (String × JsValue))
deriving Repr

/-- First-match field lookup on a JS object's property list (JS objects
have unique keys, so first match is the only match). -/
def lookupField : List (String × JsValue) → String → Option JsValue
  | [], _ => none
  | (k, v) :: rest, key => if k = key then some v else lookupField rest key

mutual
/-- Structural decidable equality for `JsValue`. -/
def jsValueBEq : JsValue → JsValue → Bool
  | .undefined, .undefined => true
  | .null, .null => true
  | .bool a, .bool b => a = b
  | .num a, .num b => a = b
  | .str a, .str b => a = b
  | .func, .func => true
  | .connection, .connection => true
  | .obj a, .obj b => jsFieldsBEq a b
  | _, _ => false

def jsFieldsBEq : List (String × JsValue) → List (String × JsValue) → Bool
  | [], [] => true
  | (k, v) :: rest, (k', v') :: rest' => k = k' && jsValueBEq v v' && jsFieldsBEq rest rest'
  | _, _ => false
end

mutual
def jsValueBEq_refl : ∀ v : JsValue, jsValueBEq v v = true
  | .undefined => rfl
  | .null => rfl
  | .bool b => by simp [jsValueBEq]
  | .num q => by simp [jsValueBEq]
  | .str s => by simp [jsValueBEq]
  | .func => rfl
  | .connection => rfl
  | .obj fields => by simp [jsValueBEq, jsFieldsBEq_refl fields]

def jsFieldsBEq_refl : ∀ l : List (String × JsValue), jsFieldsBEq l l = true
  | [] => rfl
  | (k, v) :: rest => by
      simp [jsFieldsBEq, jsValueBEq_refl v, jsFieldsBEq_refl rest]
end

mutual
def jsValueBEq_eq : ∀ {a b : JsValue}, jsValueBEq a b = true → a = b
  | .undefined, .undefined, _ => rfl
  | .null, .null, _ => rfl
  | .bool _, .bool _, h => by
      simp only [jsValueBEq, decide_eq_true_eq] at h; rw [h]
  | .num _, .num _, h => by
      simp only [jsValueBEq, decide_eq_true_eq] at h; rw [h]
  | .str _, .str _, h => by
      simp only [jsValueBEq, decide_eq_true_eq] at h; rw [h]
  | .func, .func, _ => rfl
  | .connection, .connection, _ => rfl
  | .obj _, .obj _, h => by
      simp only [jsValueBEq] at h
      rw [jsFieldsBEq_eq h]

def jsFieldsBEq_eq :
    ∀ {a b : List (String × JsValue)}, jsFieldsBEq a b = true → a = b
  | [], [], _ => rfl
  | (_, _) :: _, (_, _) :: _, h => by
      simp only [jsFieldsBEq, Bool.and_eq_true, decide_eq_true_eq] at h
      rw [h.1.1, jsValueBEq_eq h.1.2, jsFieldsBEq_eq h.2]
end

instance : DecidableEq JsValue := fun a b =>
  if h : jsValueBEq a b = true then
    .isTrue (jsValueBEq_eq h)
  else
    .isFalse (fun he => h (he ▸ jsValueBEq_refl a))

/-- Embeds `matchesAt pat l` : does `pat` occur as a leading run of `l`?
Building block for JS `String.prototype.includes`. -/
def matchesAt : List Char → List Char → Bool
  | [], _ => true
  | _ :: _, [] => false
  | p :: ps, c :: cs => p = c && matchesAt ps cs

/-- Embeds `hasSub pat l` : does `pat` occur contiguously anywhere in `l`? -/
def hasSub (pat : List Char) : List Char → Bool
  | [] => matchesAt pat []
  | c :: cs => matchesAt pat (c :: cs) || hasSub pat cs

/-- JS `s.includes(pat)` : substring containment. -/
def jsIncludes (s pat : String) : Bool := hasSub pat.data s.data

/-! ## The zod schemas (`entitySchema`), embedded as a structural parse

`z.object` checks the value is an object, checks each declared field and
strips the rest; `.optional()` accepts a missing or `undefined` field.
A required field that is absent or `undefined` fails. -/

/-- The `config` block of a parsed entity (`entitySchema.shape.config`). -/
structure EntityConfig where
  objectId : String
  key : ℚ
  name : String
  uniqueId : String
  icon : String
  unitOfMeasurement : Option String
  accuracyDecimals : Option ℚ
  forceUpdate : Option Bool
  deviceClass : Option String
  stateClass : Option ℚ
  lastResetType : Option ℚ
  disabledByDefault : Bool
  entityCategory : ℚ
deriving Repr, DecidableEq

/-- Embeds `ParsedEntityData = z.infer⟨typeof entitySchema⟩`. -/
structure ParsedEntityData where
  config : EntityConfig
  id : ℚ
  name : String
  type : String
  unit : Option String
deriving Repr, DecidableEq

/-- Embeds `z.string()` on a runtime value. -/
def parseString : JsValue → Option String
  | .str s => some s
  | _ => none

/-- Embeds `z.number()` on a runtime value. -/
def parseNumber : JsValue → Option ℚ
  | .num q => some q
  | _ => none

/-- Embeds `z.boolean()` on a runtime value. -/
def parseBool : JsValue → Option Bool
  | .bool b => some b
  | _ => none

/-- Embeds `p.optional()` applied to the (possibly absent) value of a field:
absent or `undefined` parses to `none`; otherwise `p` must succeed. -/
def parseOpt (p : JsValue → Option α) : Option JsValue → Option (Option α)
  | none => some none
  | some .undefined => some none
  | some v => (p v).map some

/-- The `config` sub-schema of `entitySchema`. -/
def parseEntityConfig (v : JsValue) : Option EntityConfig :=
  match v with
  | .obj cf => do
    let objectId ← (lookupField cf "objectId").bind parseString
    let key ← (lookupField cf "key").bind parseNumber
    let name ← (lookupField cf "name").bind parseString
    let uniqueId ← (lookupField cf "uniqueId").bind parseString
    let icon ← (lookupField cf "icon").bind parseString
    let unitOfMeasurement ← parseOpt parseString (lookupField cf "unitOfMeasurement")
    let accuracyDecimals ← parseOpt parseNumber (lookupField cf "accuracyDecimals")
    let forceUpdate ← parseOpt parseBool (lookupField cf "forceUpdate")
    let deviceClass ← parseOpt parseString (lookupField cf "deviceClass")
    let stateClass ← parseOpt parseNumber (lookupField cf "stateClass")
    let lastResetType ← parseOpt parseNumber (lookupField cf "lastResetType")
    let disabledByDefault ← (lookupField cf "disabledByDefault").bind parseBool
    let entityCategory ← (lookupField cf "entityCategory").bind parseNumber
    pure {
      objectId := objectId, key := key, name := name, uniqueId := uniqueId,
      icon := icon, unitOfMeasurement := unitOfMeasurement,
      accuracyDecimals := accuracyDecimals, forceUpdate := forceUpdate,
      deviceClass := deviceClass, stateClass := stateClass,
      lastResetType := lastResetType, disabledByDefault := disabledByDefault,
      entityCategory := entityCategory }
  | _ => none

/-- Embeds `entitySchema.safeParse`: `some` is a success (`.data`), `none` a
failure (`.error`, only logged by the driver). -/
def entitySchema_safeParse (v : JsValue) : Option ParsedEntityData :=
  match v with
  | .obj fields => do
    let config ← (lookupField fields "config").bind parseEntityConfig
    let id ← (lookupField fields "id").bind parseNumber
    let name ← (lookupField fields "name").bind parseString
    let type ← (lookupField fields "type").bind parseString
    let unit ← parseOpt parseString (lookupField fields "unit")
    pure { config := config, id := id, name := name, type := type, unit := unit }
  | _ => none

/-! ## The entity registry (`this.entities : Map⟨string, ...⟩`)

A JS `Map` in insertion order: `set` on an existing key overwrites in
place, otherwise appends; `get` finds the unique binding.
`listenerAttached` tracks whether the driver's per-entity `state`
handler is currently subscribed on the stored `original` emitter
(set at the end of `registerEntity`, removed by
`entity.original.removeAllListeners()` in `disconnect`). -/

/-- A registry value: `{ data: ParsedEntityData; original: unknown }`,
plus the listener-subscription bookkeeping of the original emitter. -/
structure RegistryEntry where
  data : ParsedEntityData
  original : JsValue
  listenerAttached : Bool
deriving Repr, DecidableEq

/-- Embeds `Map.prototype.get`. -/
def mapGet : List (String × RegistryEntry) → String → Option RegistryEntry
  | [], _ => none
  | (k, v) :: rest, key => if k = key then some v else mapGet rest key

/-- Embeds `Map.prototype.set` (overwrite in place keeps insertion order). -/
def mapSet : List (String × RegistryEntry) → String → RegistryEntry →
    List (String × RegistryEntry)
  | [], k, v => [(k, v)]
  | (k', v') :: rest, k, v =>
      if k' = k then (k, v) :: rest else (k', v') :: mapSet rest k v

/-- Mutable per-device state relevant to the claims: the entity
registry. -/
structure DeviceState where
  entities : List (String × RegistryEntry)
deriving Repr, DecidableEq

/-- Embeds `typeof raw === 'object' && raw !== null && 'connection' in raw &&
raw.connection instanceof Connection`. -/
def hasConnectionInstance (raw : JsValue) : Bool :=
  match raw with
  | .obj fields =>
      match lookupField fields "connection" with
      | some .connection => true
      | _ => false
  | _ => false

/-- Embeds `typeof raw === 'object' && raw !== null && 'on' in raw &&
typeof raw.on === 'function'`. -/
def hasOnFunction (raw : JsValue) : Bool :=
  match raw with
  | .obj fields =>
      match lookupField fields "on" with
      | some .func => true
      | _ => false
  | _ => false

/-- Embeds `typeof raw === 'object' && raw !== null && 'removeAllListeners' in
raw && typeof raw.removeAllListeners === 'function'`. -/
def hasRemoveAllListenersFn (raw : JsValue) : Bool :=
  match raw with
  | .obj fields =>
      match lookupField fields "removeAllListeners" with
      | some .func => true
      | _ => false
  | _ => false

/-- Embeds `typeof raw === 'object' && raw !== null && 'setState' in raw &&
typeof raw.setState === 'function'`. -/
def hasSetStateFn (raw : JsValue) : Bool :=
  match raw with
  | .obj fields =>
      match lookupField fields "setState" with
      | some .func => true
      | _ => false
  | _ => false

/-- How `registerEntity` returns: a schema failure is logged and
swallowed; the two contract probes throw; otherwise the state listener
is subscribed. -/
inductive RegisterOutcome where
  | invalidEntity
  | connectionContractViolation
  | onContractViolation
  | registered
deriving Repr, DecidableEq

/-- Embeds `registerEntity(entity)` (device.ts lines 401-450).  The source
first runs `entitySchema.safeParse`; on failure it logs and returns.
On success it CACHES the entry in `this.entities` keyed by
`config.objectId`, and only then probes `entity.connection` and
`entity.on`, throwing on either probe failing — so the cache write
survives a throw.  When both probes pass it subscribes the `state`
handler (`listenerAttached := true`); in the throwing branches the
entry is cached with no listener attached. -/
def registerEntity (s : DeviceState) (raw : JsValue) :
    DeviceState × RegisterOutcome :=
  match entitySchema_safeParse raw with
  | none => (s, .invalidEntity)
  | some data =>
    let cached : RegistryEntry := { data := data, original := raw, listenerAttached := false }
    let subscribed : RegistryEntry := { data := data, original := raw, listenerAttached := true }
    if !(hasConnectionInstance raw) then
      ({ s with entities := mapSet s.entities data.config.objectId cached },
        .connectionContractViolation)
    else if !(hasOnFunction raw) then
      ({ s with entities := mapSet s.entities data.config.objectId cached },
        .onContractViolation)
    else
      ({ s with entities := mapSet s.entities data.config.objectId subscribed },
        .registered)

/-! ## `disconnect()` (device.ts lines 369-394)

`disconnect` best-effort closes the transport (`try { client?.disconnect() }
catch { log }` — external effect, no registry impact), removes the
session-level listeners (external effect on the `Client` emitter), and
then iterates `this.entities.forEach(...)`: for each entry it demands
`entity.original.removeAllListeners` to be a function, THROWING
otherwise, and calls it.  It never clears `this.entities`.  The model
tracks the per-entry listener revocation; on a contract violation the
iteration stops at the offending entry (entries before it are already
revoked, entries after keep their listeners). -/

/-- Walk the registry in insertion order revoking each entry's
listeners; stop with the thrown message at the first entry whose
`original` has no `removeAllListeners` function. -/
def revokeEntityListeners : List (String × RegistryEntry) →
    List (String × RegistryEntry) × Option String
  | [] => ([], none)
  | (k, e) :: rest =>
    if hasRemoveAllListenersFn e.original then
      let tail := revokeEntityListeners rest
      ((k, { e with listenerAttached := false }) :: tail.1, tail.2)
    else
      ((k, e) :: rest, some "Expected entity.removeAllListeners to be a function")

/-- How `disconnect` ends: normally, or by the thrown contract
violation from the `forEach` body. -/
inductive DisconnectOutcome where
  | ok
  | contractViolation (msg : String)
deriving Repr, DecidableEq

/-- Embeds `disconnect()`.  Note the registry keeps all its entries: the
source never calls `this.entities.clear()` (or any other removal). -/
def disconnect (s : DeviceState) : DeviceState × DisconnectOutcome :=
  let revoked := revokeEntityListeners s.entities
  ({ s with entities := revoked.1 },
    match revoked.2 with
    | none => .ok
    | some msg => .contractViolation msg)

/-- Can a device-originated `state` event for `objectId` still reach the
driver's handler?  True exactly when the registry holds an entry whose
emitter still has the handler subscribed. -/
def stateHandlerActive (s : DeviceState) (objectId : String) : Bool :=
  match mapGet s.entities objectId with
  | some e => e.listenerAttached
  | none => false

/-! ## `connect()` — the `Client` construction options (device.ts lines 298-313) -/

/-- The option bag passed to `new Client({...})`. -/
structure ClientConfig where
  clearSession : Bool
  initializeDeviceInfo : Bool
  initializeListEntities : Bool
  initializeSubscribeStates : Bool
  initializeSubscribeLogs : Bool
  initializeSubscribeBLEAdvertisements : Bool
  clientInfo : String
  encryptionKey : String
  password : String
  reconnect : Bool
  reconnectInterval : ℕ
  pingInterval : ℕ
  pingAttempts : ℕ
deriving Repr, DecidableEq

/-- The literal configuration `connect()` always passes to
`new Client` (host/port omitted: they vary per device store). -/
def connectClientConfig : ClientConfig where
  clearSession := false
  initializeDeviceInfo := false
  initializeListEntities := false
  initializeSubscribeStates := true
  initializeSubscribeLogs := false
  initializeSubscribeBLEAdvertisements := false
  clientInfo := "homey"
  encryptionKey := ""
  password := ""
  reconnect := true
  reconnectInterval := 30000
  pingInterval := 15000
  pingAttempts := 3

/-! ## The client `error` handler (device.ts lines 319-333) -/

/-- An asynchronous session error: either an `Error` instance (so
`getErrorMessage` reads `.message`) or any other value (stringified). -/
inductive JsError where
  | error (message : String)
  | other (stringified : String)
deriving Repr, DecidableEq

/-- Embeds `getErrorMessage(error)` (device.ts lines 231-234). -/
def getErrorMessage : JsError → String
  | .error m => m
  | .other s => s

/-- What the `error` handler did: mark unavailable with the
encryption-specific reason, with the generic reason, or nothing
(reconnect succeeded). -/
inductive UnavailableReason where
  | unavailable_encrypted
  | unavailable
deriving Repr, DecidableEq

/-- Observable outcome of one run of the client `error` handler. -/
structure ErrorHandlerOutcome where
  reconnectAttempted : Bool
  unavailableReason : Option UnavailableReason
deriving Repr, DecidableEq

/-- The client `error` handler: an encryption-format error short-circuits
to `setUnavailable('error.unavailable_encrypted')` with NO reconnect;
any other error calls `this.connect()`, and only if that rejects is the
device marked unavailable with the generic reason.
`reconnectSucceeds` abstracts whether that inner `connect()` resolves. -/
def onClientError (err : JsError) (reconnectSucceeds : Bool) : ErrorHandlerOutcome :=
  if jsIncludes (getErrorMessage err) "Bad format: Encryption expected" then
    { reconnectAttempted := false, unavailableReason := some .unavailable_encrypted }
  else if reconnectSucceeds then
    { reconnectAttempted := true, unavailableReason := none }
  else
    { reconnectAttempted := true, unavailableReason := some .unavailable }

/-! ## The connect promise and its timeout (device.ts lines 335-364)

`connectPromise` races a `setTimeout(reject ConnectTimeout, 15000)`
against the client's `initialized` event; the `initialized` handler
always calls `clearTimeout` before resolving.  The model takes the time
at which `initialized` fires (`none` = never) and reports which way the
promise settles, whether the timer ever fired, and whether
`clearTimeout` was called on it. -/

/-- Embeds `CONNECT_TIMEOUT = 15000` (device.ts line 13). -/
def CONNECT_TIMEOUT : ℕ := 15000

/-- How the awaited connect promise settles. -/
inductive ConnectOutcome where
  | resolved
  | rejectedConnectTimeout
deriving Repr, DecidableEq

/-- Observable trace of one connect attempt's promise and timer. -/
structure ConnectWait where
  result : ConnectOutcome
  timerFired : Bool
  timerCleared : Bool
deriving Repr, DecidableEq

/-- Whether a timer is still armed after the attempt settles: it neither
fired nor was cleared. -/
def ConnectWait.danglingTimer (w : ConnectWait) : Bool :=
  !w.timerFired && !w.timerCleared

/-- The connect promise: if `initialized` fires strictly before
`CONNECT_TIMEOUT`, the handler clears the timer (which therefore never
fires) and resolves; otherwise the timer fires first and rejects with
the `ConnectTimeout` error, and a late `initialized` handler (if any)
still clears the spent timer. -/
def connectAwaitInit (initTime : Option ℕ) : ConnectWait :=
  match initTime with
  | none => { result := .rejectedConnectTimeout, timerFired := true, timerCleared := false }
  | some t =>
    if t < CONNECT_TIMEOUT then
      { result := .resolved, timerFired := false, timerCleared := true }
    else
      { result := .rejectedConnectTimeout, timerFired := true, timerCleared := true }

/-! ## `onEntityState` (device.ts lines 458-562)

The raw `state` payload is only cast (`state as z.infer⟨typeof
entityStateSchema⟩`) — no schema pass.  Every use is the optional-chained
property read `parsedState?.state` guarded by a `typeof` check, so the
model extracts that one property: for a JS object it is the `state`
field (or `undefined`), for every primitive (including `null` and
`undefined` via `?.`) it is `undefined`. -/

/-- The value of `parsedState?.state`. -/
def stateField (state : JsValue) : JsValue :=
  match state with
  | .obj fields =>
      match lookupField fields "state" with
      | some v => v
      | none => .undefined
  | _ => .undefined

/-- Embeds `includesBinarySensorMMWave(entity)` (device.ts lines 245-250). -/
def includesBinarySensorMMWave (entity : ParsedEntityData) : Bool :=
  jsIncludes entity.config.uniqueId "binary_sensor_mmwave" ||
  jsIncludes entity.config.uniqueId "binary_sensormmwave"

/-- Embeds `includesBinarySensorOccupancy(entity)` (device.ts lines 261-266). -/
def includesBinarySensorOccupancy (entity : ParsedEntityData) : Bool :=
  jsIncludes entity.config.uniqueId "binary_sensor_occupancy" ||
  jsIncludes entity.config.uniqueId "binary_sensoroccupancy"

/-- One `this.setCapabilityValue(id, v)` call. -/
inductive CapabilityWrite where
  | measure_temperature (v : ℚ)
  | measure_humidity (v : ℚ)
  | measure_luminance (v : ℚ)
  | alarm_motion_pir (v : Bool)
  | alarm_motion_mmwave (v : Bool)
  | alarm_motion (v : Bool)
deriving Repr, DecidableEq

/-- A value written into the device's persisted settings. -/
inductive SettingValue where
  | num (q : ℚ)
  | bool (b : Bool)
deriving Repr, DecidableEq

/-- The first `switch (entity.config.deviceClass)` of `onEntityState`:
at most one capability write, with a `typeof` value guard per class
(number for the measure capabilities, boolean for the motion/occupancy
alarms); `occupancy` disambiguates by `uniqueId`, mmWave checked first. -/
def capabilityWritesFor (entity : ParsedEntityData) (stateVal : JsValue) :
    List CapabilityWrite :=
  if entity.config.deviceClass = some "temperature" then
    match stateVal with
    | .num q => [.measure_temperature q]
    | _ => []
  else if entity.config.deviceClass = some "humidity" then
    match stateVal with
    | .num q => [.measure_humidity q]
    | _ => []
  else if entity.config.deviceClass = some "illuminance" then
    match stateVal with
    | .num q => [.measure_luminance q]
    | _ => []
  else if entity.config.deviceClass = some "motion" then
    match stateVal with
    | .bool b => [.alarm_motion_pir b]
    | _ => []
  else if entity.config.deviceClass = some "occupancy" then
    match stateVal with
    | .bool b =>
        if includesBinarySensorMMWave entity then [.alarm_motion_mmwave b]
        else if includesBinarySensorOccupancy entity then [.alarm_motion b]
        else []
    | _ => []
  else []

/-- The second `switch (entity.config.objectId)` of `onEntityState`:
the four numeric mmWave tuning settings take a number, the two LED
toggles take a boolean; anything else is only logged. -/
def settingsWritesFor (entity : ParsedEntityData) (stateVal : JsValue) :
    List (String × SettingValue) :=
  if entity.config.objectId = "mmwave_sensitivity" ∨
      entity.config.objectId = "mmwave_on_latency" ∨
      entity.config.objectId = "mmwave_off_latency" ∨
      entity.config.objectId = "mmwave_distance" then
    match stateVal with
    | .num q => [(entity.config.objectId, .num q)]
    | _ => []
  else if entity.config.objectId = "mmwave_led" ∨
      entity.config.objectId = "esp32_status_led" then
    match stateVal with
    | .bool b => [(entity.config.objectId, .bool b)]
    | _ => []
  else []

/-- The side effects of one `onEntityState` call. -/
structure DispatchResult where
  capabilityWrites : List CapabilityWrite
  settingsWrites : List (String × SettingValue)
deriving Repr, DecidableEq

/-- Embeds `onEntityState(entityId, state)`: look the entity up in the
registry; absence throws ``Missing entity ${entityId}``; otherwise run
both switches.  Capability and settings writes are fire-and-forget in
the source (`.catch` only logs), so the result records which writes
were issued. -/
def onEntityState (s : DeviceState) (entityId : String) (state : JsValue) :
    Except String DispatchResult :=
  match mapGet s.entities entityId with
  | none => .error ("Missing entity " ++ entityId)
  | some entry =>
      let stateVal := stateField state
      .ok { capabilityWrites := capabilityWritesFor entry.data stateVal,
            settingsWrites := settingsWritesFor entry.data stateVal }

/-- The `state` listener closure installed by `registerEntity` (device.ts
lines 443-449): `try { onEntityState(...) } catch { debugEntity(...) }` —
any throw is caught at this boundary and only logged (`none`). -/
def entityStateHandler (s : DeviceState) (entityId : String) (state : JsValue) :
    Option DispatchResult :=
  match onEntityState s entityId state with
  | .ok r => some r
  | .error _ => none

/-! ## `onSettings` (device.ts lines 578-615) -/

/-- Whether `changedKey` is one of the six `DRIVER_SETTINGS` cases of
the `switch` in `onSettings`. -/
def isDriverSettingKey (k : String) : Bool :=
  k = "mmwave_sensitivity" || k = "mmwave_on_latency" ||
  k = "mmwave_off_latency" || k = "mmwave_distance" ||
  k = "mmwave_led" || k = "esp32_status_led"

/-- JS truthiness of a runtime value (for `if (!entity.original)`). -/
def jsTruthy : JsValue → Bool
  | .undefined => false
  | .null => false
  | .bool b => b
  | .num q => q ≠ 0
  | .str s => s ≠ ""
  | .func => true
  | .connection => true
  | .obj _ => true

/-- One `entity.original.setState(value)` call issued by `onSettings`. -/
structure SetStateCall where
  objectId : String
  value : SettingValue
deriving Repr, DecidableEq

/-- Embeds `newSettings[changedKey]`: absent keys read as `undefined`. -/
def settingsRead (newSettings : List (String × JsValue)) (k : String) : JsValue :=
  match lookupField newSettings k with
  | some v => v
  | none => .undefined

/-- The `for (const changedKey of changedKeys)` loop of `onSettings`.
A throw (`Missing entity`, `Missing original entity`, missing
`setState`) aborts the loop and rejects the settings-write request;
keys outside the six settings, and values that are neither number nor
boolean, are skipped. -/
def onSettingsLoop (s : DeviceState) (newSettings : List (String × JsValue)) :
    List String → Except String (List SetStateCall)
  | [] => .ok []
  | k :: rest =>
    if isDriverSettingKey k then
      match mapGet s.entities k with
      | none => .error ("Missing entity " ++ k)
      | some entry =>
        if !(jsTruthy entry.original) then
          .error ("Missing original entity " ++ k)
        else
          match settingsRead newSettings k with
          | .num q =>
              if !(hasSetStateFn entry.original) then
                .error "Expected entity.setState to be a function"
              else
                (onSettingsLoop s newSettings rest).map
                  (fun calls => { objectId := k, value := .num q } :: calls)
          | .bool b =>
              if !(hasSetStateFn entry.original) then
                .error "Expected entity.setState to be a function"
              else
                (onSettingsLoop s newSettings rest).map
                  (fun calls => { objectId := k, value := .bool b } :: calls)
          | _ => onSettingsLoop s newSettings rest
    else onSettingsLoop s newSettings rest

/-- Embeds `onSettings({ newSettings, changedKeys })`: a rejection models the
thrown error propagating to the caller (the settings UI). -/
def onSettings (s : DeviceState) (newSettings : List (String × JsValue))
    (changedKeys : List String) : Except String (List SetStateCall) :=
  onSettingsLoop s newSettings changedKeys

/-! ## Concrete runtime values used to exercise the model

These mirror the example entity dump in the source comments (device.ts
lines 89-191), shrunk to the schema-relevant fields. -/

/-- An empty device state: the registry right after `onInit`. -/
def emptyDeviceState : DeviceState := { entities := [] }

/-- The `config` property of a well-formed temperature entity payload. -/
def sampleConfigFields : List (String × JsValue) :=
  [("objectId", .str "_temperature"), ("key", .num 1), ("name", .str "Temp"),
   ("uniqueId", .str "epo-7083ccsensor_temperature"), ("icon", .str ""),
   ("deviceClass", .str "temperature"), ("disabledByDefault", .bool false),
   ("entityCategory", .num 0)]

/-- A well-formed temperature entity payload as emitted by `newEntity`,
with a live `Connection` and emitter methods. -/
def sampleRawEntity : JsValue :=
  .obj [("config", .obj sampleConfigFields),
        ("id", .num 1), ("name", .str "Temp"), ("type", .str "Sensor"),
        ("connection", .connection), ("on", .func),
        ("removeAllListeners", .func), ("setState", .func)]

/-- The parse of `sampleRawEntity` under `entitySchema`. -/
def sampleData : ParsedEntityData where
  config := {
    objectId := "_temperature", key := 1, name := "Temp",
    uniqueId := "epo-7083ccsensor_temperature", icon := "",
    unitOfMeasurement := none, accuracyDecimals := none, forceUpdate := none,
    deviceClass := some "temperature", stateClass := none,
    lastResetType := none, disabledByDefault := false, entityCategory := 0 }
  id := 1
  name := "Temp"
  type := "Sensor"
  unit := none

/-- The registry entry produced by registering `sampleRawEntity`. -/
def sampleEntry : RegistryEntry where
  data := sampleData
  original := sampleRawEntity
  listenerAttached := true

/-- The device state after successfully registering `sampleRawEntity`. -/
def sampleState : DeviceState := (registerEntity emptyDeviceState sampleRawEntity).1

/-- A second announcement of the same `objectId` (`_temperature`) with a
different display name, as a reconnect would deliver. -/
def sampleRawEntity2 : JsValue :=
  .obj [("config", .obj
          [("objectId", .str "_temperature"), ("key", .num 1), ("name", .str "Temp2"),
           ("uniqueId", .str "epo-7083ccsensor_temperature"), ("icon", .str ""),
           ("deviceClass", .str "temperature"), ("disabledByDefault", .bool false),
           ("entityCategory", .num 0)]),
        ("id", .num 1), ("name", .str "Temp2"), ("type", .str "Sensor"),
        ("connection", .connection), ("on", .func),
        ("removeAllListeners", .func), ("setState", .func)]

/-- The parse of `sampleRawEntity2`. -/
def sampleData2 : ParsedEntityData where
  config := {
    objectId := "_temperature", key := 1, name := "Temp2",
    uniqueId := "epo-7083ccsensor_temperature", icon := "",
    unitOfMeasurement := none, accuracyDecimals := none, forceUpdate := none,
    deviceClass := some "temperature", stateClass := none,
    lastResetType := none, disabledByDefault := false, entityCategory := 0 }
  id := 1
  name := "Temp2"
  type := "Sensor"
  unit := none

/-- An occupancy entity whose `uniqueId` matches BOTH substring families
(`binary_sensor_mmwave` and `binary_sensor_occupancy`). -/
def occBothData : ParsedEntityData where
  config := {
    objectId := "occ_both", key := 2, name := "Occ",
    uniqueId := "binary_sensor_mmwave_binary_sensor_occupancy", icon := "",
    unitOfMeasurement := none, accuracyDecimals := none, forceUpdate := none,
    deviceClass := some "occupancy", stateClass := none,
    lastResetType := none, disabledByDefault := false, entityCategory := 0 }
  id := 2
  name := "Occ"
  type := "BinarySensor"
  unit := none

/-- A registry holding `occBothData` with its listener subscribed. -/
def occBothState : DeviceState where
  entities := [("occ_both",
    { data := occBothData,
      original := .obj [("removeAllListeners", .func)],
      listenerAttached := true })]

/-- An occupancy entity matching only the mmWave substring family. -/
def occMMWaveData : ParsedEntityData where
  config := {
    objectId := "occ_mm", key := 3, name := "MMWave",
    uniqueId := "everything-presence-one-7083ccbinary_sensormmwave", icon := "",
    unitOfMeasurement := none, accuracyDecimals := none, forceUpdate := none,
    deviceClass := some "occupancy", stateClass := none,
    lastResetType := none, disabledByDefault := false, entityCategory := 0 }
  id := 3
  name := "MMWave"
  type := "BinarySensor"
  unit := none

/-- An occupancy entity matching only the occupancy substring family. -/
def occOnlyData : ParsedEntityData where
  config := {
    objectId := "occ_occ", key := 4, name := "Occupancy",
    uniqueId := "everything-presence-one-7083ccbinary_sensor_occupancy", icon := "",
    unitOfMeasurement := none, accuracyDecimals := none, forceUpdate := none,
    deviceClass := some "occupancy", stateClass := none,
    lastResetType := none, disabledByDefault := false, entityCategory := 0 }
  id := 4
  name := "Occupancy"
  type := "BinarySensor"
  unit := none

/-- The registry entry for `occMMWaveData`. -/
def occMMWaveEntry : RegistryEntry where
  data := occMMWaveData
  original := .obj [("removeAllListeners", .func)]
  listenerAttached := true

/-- The registry entry for `occOnlyData`. -/
def occOnlyEntry : RegistryEntry where
  data := occOnlyData
  original := .obj [("removeAllListeners", .func)]
  listenerAttached := true

/-- A registry holding the two occupancy entities above. -/
def occRoutingState : DeviceState where
  entities := [("occ_mm", occMMWaveEntry), ("occ_occ", occOnlyEntry)]

/-- A payload that passes `entitySchema` but whose `connection` property
is a string, not a `Connection` instance. -/
def badConnRaw : JsValue :=
  .obj [("config", .obj
          [("objectId", .str "sensor_badconn"), ("key", .num 9), ("name", .str "Bad"),
           ("uniqueId", .str "epo-7083ccsensor_badconn"), ("icon", .str ""),
           ("disabledByDefault", .bool false), ("entityCategory", .num 0)]),
        ("id", .num 9), ("name", .str "Bad"), ("type", .str "Sensor"),
        ("connection", .str "not-a-connection"), ("on", .func)]

/-- The parse of `badConnRaw`. -/
def badConnData : ParsedEntityData where
  config := {
    objectId := "sensor_badconn", key := 9, name := "Bad",
    uniqueId := "epo-7083ccsensor_badconn", icon := "",
    unitOfMeasurement := none, accuracyDecimals := none, forceUpdate := none,
    deviceClass := none, stateClass := none,
    lastResetType := none, disabledByDefault := false, entityCategory := 0 }
  id := 9
  name := "Bad"
  type := "Sensor"
  unit := none

/-! ## Helper lemmas about the registry map and disconnect -/

theorem mapGet_mapSet_self (m : List (String × RegistryEntry)) (k : String)
    (v : RegistryEntry) : mapGet (mapSet m k v) k = some v := by
  induction m with
  | nil => simp [mapSet, mapGet]
  | cons hd tl ih =>
    obtain ⟨k', v'⟩ := hd
    by_cases h : k' = k
    · simp [mapSet, h, mapGet]
    · simp [mapSet, h, mapGet, ih]

theorem mapGet_mem {m : List (String × RegistryEntry)} {k : String}
    {v : RegistryEntry} (h : mapGet m k = some v) : (k, v) ∈ m := by
  induction m with
  | nil => simp [mapGet] at h
  | cons hd tl ih =>
    obtain ⟨k', v'⟩ := hd
    by_cases hk : k' = k
    · subst hk
      simp [mapGet] at h
      simp [h]
    · simp [mapGet, hk] at h
      exact List.mem_cons_of_mem _ (ih h)

theorem revokeEntityListeners_ok {l : List (String × RegistryEntry)}
    (h : (revokeEntityListeners l).2 = none) :
    (revokeEntityListeners l).1.map Prod.fst = l.map Prod.fst ∧
    ∀ p ∈ (revokeEntityListeners l).1, p.2.listenerAttached = false := by
  induction l with
  | nil => simp [revokeEntityListeners]
  | cons hd tl ih =>
    obtain ⟨k, e⟩ := hd
    by_cases hr : hasRemoveAllListenersFn e.original
    · simp only [revokeEntityListeners, hr, if_true] at h ⊢
      obtain ⟨h1, h2⟩ := ih h
      refine ⟨by simp [h1], ?_⟩
      intro p hp
      rcases List.mem_cons.mp hp with hp | hp
      · rw [hp]
      · exact h2 p hp
    · simp [revokeEntityListeners, hr] at h

theorem registerEntity_lookup (s : DeviceState) (raw : JsValue)
    (d : ParsedEntityData) (h : entitySchema_safeParse raw = some d) :
    ∃ e, mapGet (registerEntity s raw).1.entities d.config.objectId = some e ∧
      e.data = d ∧ e.original = raw := by
  unfold registerEntity
  rw [h]
  by_cases h1 : hasConnectionInstance raw
  · by_cases h2 : hasOnFunction raw
    · exact ⟨{ data := d, original := raw, listenerAttached := true },
        by simp [h1, h2, mapGet_mapSet_self], rfl, rfl⟩
    · exact ⟨{ data := d, original := raw, listenerAttached := false },
        by simp [h1, h2, mapGet_mapSet_self], rfl, rfl⟩
  · exact ⟨{ data := d, original := raw, listenerAttached := false },
      by simp [h1, mapGet_mapSet_self], rfl, rfl⟩

/-! ## Claim theorems -/

/-- C1 (counterexample): the claim "after disconnect() completes the
entity registry is empty" is false on the code.  Starting from a state
holding one successfully registered entity, `disconnect` completes
normally (no contract violation) yet the registry still holds the
`_temperature` entry: `disconnect` never calls `this.entities.clear()`. -/
theorem C1_disconnect_counterexample :
    (disconnect sampleState).2 = DisconnectOutcome.ok ∧
    (disconnect sampleState).1.entities.map Prod.fst = ["_temperature"] ∧
    (disconnect sampleState).1.entities ≠ [] := by
  refine ⟨rfl, rfl, ?_⟩
  decide

/-- C1 (amended): after every `disconnect()` call that completes without
a contract violation, every registered entity's state listener has been
revoked — so no per-entity state event handler can fire — but the
registry is NOT emptied: it keeps exactly the same keys, and a
reconnect overwrites entries per `objectId` instead of repopulating an
empty registry. -/
theorem C1_disconnect_revokes_all_listeners (s : DeviceState)
    (h : (disconnect s).2 = DisconnectOutcome.ok) :
    (∀ id, stateHandlerActive (disconnect s).1 id = false) ∧
    (disconnect s).1.entities.map Prod.fst = s.entities.map Prod.fst := by
  have hrev : (revokeEntityListeners s.entities).2 = none := by
    cases hc : (revokeEntityListeners s.entities).2 with
    | none => rfl
    | some msg =>
      exfalso
      have hd : (disconnect s).2 = (match (revokeEntityListeners s.entities).2 with
          | none => DisconnectOutcome.ok
          | some m => DisconnectOutcome.contractViolation m) := rfl
      rw [hd, hc] at h
      exact DisconnectOutcome.noConfusion h
  obtain ⟨hkeys, hlist⟩ := revokeEntityListeners_ok hrev
  refine ⟨?_, hkeys⟩
  intro id
  show (match mapGet (revokeEntityListeners s.entities).1 id with
    | some e => e.listenerAttached
    | none => false) = false
  cases hm : mapGet (revokeEntityListeners s.entities).1 id with
  | none => rfl
  | some e => exact hlist _ (mapGet_mem hm)

/-- C1 (witness): the amended theorem applied to the concrete
one-entity state. -/
theorem C1_disconnect_revokes_all_listeners_witness :
    stateHandlerActive (disconnect sampleState).1 "_temperature" = false ∧
    (disconnect sampleState).1.entities.map Prod.fst =
      sampleState.entities.map Prod.fst :=
  ⟨(C1_disconnect_revokes_all_listeners sampleState rfl).1 "_temperature",
   (C1_disconnect_revokes_all_listeners sampleState rfl).2⟩

/-- C2 (counterexample): the claim requires transport-level persistent
reconnection to be DISABLED, but the option bag `connect()` passes to
`new Client` has `reconnect: true` — so the claimed fixed configuration
is not the one the code uses. -/
theorem C2_connect_config_counterexample :
    ¬ (connectClientConfig.initializeSubscribeStates = true ∧
       connectClientConfig.initializeSubscribeLogs = false ∧
       connectClientConfig.initializeSubscribeBLEAdvertisements = false ∧
       connectClientConfig.initializeDeviceInfo = false ∧
       connectClientConfig.reconnect = false) := by
  intro hcl
  exact absurd hcl.2.2.2.2 (by decide)

/-- C2 (amended): every `connect()` call passes the same fixed option
bag: state subscription enabled, log/BLE/device-info subscriptions
disabled — but transport-level persistent reconnection is ENABLED
(`reconnect: true`, every 30000 time units), on top of the manager's
own reconnection in the error handler. -/
theorem C2_connect_config_fixed :
    connectClientConfig.initializeSubscribeStates = true ∧
    connectClientConfig.initializeSubscribeLogs = false ∧
    connectClientConfig.initializeSubscribeBLEAdvertisements = false ∧
    connectClientConfig.initializeDeviceInfo = false ∧
    connectClientConfig.reconnect = true ∧
    connectClientConfig.reconnectInterval = 30000 :=
  ⟨rfl, rfl, rfl, rfl, rfl, rfl⟩

/-- C3: an asynchronous session error whose message contains
"Bad format: Encryption expected" marks the device unavailable with the
encryption-specific reason and attempts NO reconnect; every other error
attempts a reconnect, and only if that reconnect fails is the device
marked unavailable with the generic reason (a successful reconnect
marks nothing unavailable). -/
theorem C3_session_error_classification (err : JsError) (rs : Bool) :
    (jsIncludes (getErrorMessage err) "Bad format: Encryption expected" = true →
      onClientError err rs =
        { reconnectAttempted := false,
          unavailableReason := some UnavailableReason.unavailable_encrypted }) ∧
    (jsIncludes (getErrorMessage err) "Bad format: Encryption expected" = false →
      (onClientError err rs).reconnectAttempted = true ∧
      (rs = false →
        (onClientError err rs).unavailableReason = some UnavailableReason.unavailable) ∧
      (rs = true → (onClientError err rs).unavailableReason = none)) := by
  unfold onClientError
  constructor
  · intro h
    simp [h]
  · intro h
    simp [h]
    cases rs <;> simp

/-- C3 (witness): the classification at two concrete errors. -/
theorem C3_session_error_classification_witness :
    onClientError (JsError.error "Bad format: Encryption expected") false =
      { reconnectAttempted := false,
        unavailableReason := some UnavailableReason.unavailable_encrypted } ∧
    (onClientError (JsError.error "read ECONNRESET") false).reconnectAttempted = true :=
  ⟨(C3_session_error_classification (JsError.error "Bad format: Encryption expected")
      false).1 (by decide),
   ((C3_session_error_classification (JsError.error "read ECONNRESET")
      false).2 (by decide)).1⟩

/-- C4: a connect attempt whose `initialized` signal does not arrive
within the fixed 15000-unit timeout rejects with the `ConnectTimeout`
error; when the signal arrives in time, the attempt resolves and the
timeout timer has been cleared before ever firing, so no spurious
failure fires after success — and no attempt ever leaves a dangling
timer. -/
theorem C4_connect_timeout_behaviour (t : ℕ) (w : Option ℕ) :
    (connectAwaitInit none).result = ConnectOutcome.rejectedConnectTimeout ∧
    (CONNECT_TIMEOUT ≤ t →
      (connectAwaitInit (some t)).result = ConnectOutcome.rejectedConnectTimeout) ∧
    (t < CONNECT_TIMEOUT →
      connectAwaitInit (some t) =
        { result := ConnectOutcome.resolved, timerFired := false,
          timerCleared := true }) ∧
    (connectAwaitInit w).danglingTimer = false := by
  refine ⟨rfl, ?_, ?_, ?_⟩
  · intro h
    simp [connectAwaitInit, Nat.not_lt.mpr h]
  · intro h
    simp [connectAwaitInit, h]
  · cases w with
    | none => rfl
    | some u =>
      unfold connectAwaitInit ConnectWait.danglingTimer
      by_cases h : u < CONNECT_TIMEOUT <;> simp [h]

/-- C4 (witness): the timeout behaviour at the boundary instant 15000
and at an in-time instant 10. -/
theorem C4_connect_timeout_behaviour_witness :
    (connectAwaitInit (some 15000)).result = ConnectOutcome.rejectedConnectTimeout ∧
    connectAwaitInit (some 10) =
      { result := ConnectOutcome.resolved, timerFired := false,
        timerCleared := true } :=
  ⟨(C4_connect_timeout_behaviour 15000 none).2.1 (by decide),
   (C4_connect_timeout_behaviour 10 none).2.2.1 (by decide)⟩

/-- C5: for a registered entity of device class `temperature`, a state
event carrying a numeric value `q` issues exactly the capability write
`measure_temperature q`, and a state event carrying a boolean value
issues no capability write at all. -/
theorem C5_temperature_routing (s : DeviceState) (id : String)
    (entry : RegistryEntry) (state : JsValue) (q : ℚ) (b : Bool)
    (hget : mapGet s.entities id = some entry)
    (hdc : entry.data.config.deviceClass = some "temperature") :
    (stateField state = JsValue.num q →
      onEntityState s id state =
        Except.ok { capabilityWrites := [CapabilityWrite.measure_temperature q],
                    settingsWrites := settingsWritesFor entry.data (JsValue.num q) }) ∧
    (stateField state = JsValue.bool b →
      onEntityState s id state =
        Except.ok { capabilityWrites := [],
                    settingsWrites := settingsWritesFor entry.data (JsValue.bool b) }) := by
  have hrun : onEntityState s id state =
      Except.ok { capabilityWrites := capabilityWritesFor entry.data (stateField state),
                  settingsWrites := settingsWritesFor entry.data (stateField state) } := by
    unfold onEntityState
    rw [hget]
  constructor
  · intro h
    rw [hrun, h]
    simp [capabilityWritesFor, hdc]
  · intro h
    rw [hrun, h]
    simp [capabilityWritesFor, hdc]

/-- C5 (witness): the temperature entity receiving numeric `21.5` and a
boolean, on the concrete registered state. -/
theorem C5_temperature_routing_witness :
    onEntityState sampleState "_temperature"
        (JsValue.obj [("key", JsValue.num 1), ("state", JsValue.num (21.5 : ℚ))]) =
      Except.ok { capabilityWrites := [CapabilityWrite.measure_temperature (21.5 : ℚ)],
                  settingsWrites := [] } ∧
    onEntityState sampleState "_temperature"
        (JsValue.obj [("key", JsValue.num 1), ("state", JsValue.bool true)]) =
      Except.ok { capabilityWrites := [], settingsWrites := [] } :=
  ⟨(C5_temperature_routing sampleState "_temperature" sampleEntry
      (JsValue.obj [("key", JsValue.num 1), ("state", JsValue.num (21.5 : ℚ))])
      (21.5 : ℚ) true rfl rfl).1 rfl,
   (C5_temperature_routing sampleState "_temperature" sampleEntry
      (JsValue.obj [("key", JsValue.num 1), ("state", JsValue.bool true)])
      (21.5 : ℚ) true rfl rfl).2 rfl⟩

/-- C6 (counterexample): the claim routes every occupancy entity whose
`uniqueId` contains `binary_sensor_occupancy` to `alarm_motion`, but
the code checks the mmWave substrings FIRST: for the registered entity
with `uniqueId` containing both families, the boolean state is written
to `alarm_motion.mmwave` and no `alarm_motion` write is issued. -/
theorem C6_occupancy_routing_counterexample :
    occBothData.config.deviceClass = some "occupancy" ∧
    includesBinarySensorOccupancy occBothData = true ∧
    onEntityState occBothState "occ_both"
        (JsValue.obj [("state", JsValue.bool true)]) =
      Except.ok { capabilityWrites := [CapabilityWrite.alarm_motion_mmwave true],
                  settingsWrites := [] } ∧
    CapabilityWrite.alarm_motion true ∉
      capabilityWritesFor occBothData (JsValue.bool true) :=
  ⟨rfl, by decide, rfl, by decide⟩

/-- C6 (amended): for a registered occupancy-class entity receiving a
boolean state, a `uniqueId` matching the mmWave substrings routes the
value to `alarm_motion.mmwave`; a `uniqueId` NOT matching the mmWave
substrings but matching the occupancy substrings routes it to
`alarm_motion` (the mmWave check takes precedence when both match). -/
theorem C6_occupancy_routing (s : DeviceState) (id : String)
    (entry : RegistryEntry) (state : JsValue) (b : Bool)
    (hget : mapGet s.entities id = some entry)
    (hdc : entry.data.config.deviceClass = some "occupancy")
    (hb : stateField state = JsValue.bool b) :
    (includesBinarySensorMMWave entry.data = true →
      onEntityState s id state =
        Except.ok { capabilityWrites := [CapabilityWrite.alarm_motion_mmwave b],
                    settingsWrites := settingsWritesFor entry.data (JsValue.bool b) }) ∧
    (includesBinarySensorMMWave entry.data = false →
      includesBinarySensorOccupancy entry.data = true →
      onEntityState s id state =
        Except.ok { capabilityWrites := [CapabilityWrite.alarm_motion b],
                    settingsWrites := settingsWritesFor entry.data (JsValue.bool b) }) := by
  have hrun : onEntityState s id state =
      Except.ok { capabilityWrites := capabilityWritesFor entry.data (stateField state),
                  settingsWrites := settingsWritesFor entry.data (stateField state) } := by
    unfold onEntityState
    rw [hget]
  constructor
  · intro hmm
    rw [hrun, hb]
    simp [capabilityWritesFor, hdc, hmm]
  · intro hmm hocc
    rw [hrun, hb]
    simp [capabilityWritesFor, hdc, hmm, hocc]

/-- C6 (witness): the amended routing on the concrete two-entity
registry — the mmWave-matching entity and the occupancy-only entity. -/
theorem C6_occupancy_routing_witness :
    onEntityState occRoutingState "occ_mm"
        (JsValue.obj [("state", JsValue.bool true)]) =
      Except.ok { capabilityWrites := [CapabilityWrite.alarm_motion_mmwave true],
                  settingsWrites := [] } ∧
    onEntityState occRoutingState "occ_occ"
        (JsValue.obj [("state", JsValue.bool false)]) =
      Except.ok { capabilityWrites := [CapabilityWrite.alarm_motion false],
                  settingsWrites := [] } :=
  ⟨(C6_occupancy_routing occRoutingState "occ_mm" occMMWaveEntry
      (JsValue.obj [("state", JsValue.bool true)]) true rfl rfl rfl).1 rfl,
   (C6_occupancy_routing occRoutingState "occ_occ" occOnlyEntry
      (JsValue.obj [("state", JsValue.bool false)]) false rfl rfl rfl).2 rfl rfl⟩

/-- C7: a payload that fails the entity schema leaves the registry (and
the whole device state) unchanged, and `registerEntity` does not throw:
it returns after logging the validation failure. -/
theorem C7_register_invalid_is_noop (s : DeviceState) (raw : JsValue)
    (h : entitySchema_safeParse raw = none) :
    registerEntity s raw = (s, RegisterOutcome.invalidEntity) := by
  unfold registerEntity
  rw [h]

/-- C7 (witness): registering a number payload (not even an object)
against the nonempty concrete state. -/
theorem C7_register_invalid_is_noop_witness :
    registerEntity sampleState (JsValue.num 5) =
      (sampleState, RegisterOutcome.invalidEntity) :=
  C7_register_invalid_is_noop sampleState (JsValue.num 5) rfl

/-- C8: registering a schema-valid entity stores it under its
`config.objectId`, and looking that key up returns the stored entity
data and original payload unchanged; registering a second valid entity
with the same `objectId` overwrites the entry — the lookup then
returns the second entity's data (latest write wins). -/
theorem C8_register_lookup_latest_wins (s : DeviceState)
    (raw₁ raw₂ : JsValue) (d₁ d₂ : ParsedEntityData)
    (h₁ : entitySchema_safeParse raw₁ = some d₁)
    (h₂ : entitySchema_safeParse raw₂ = some d₂)
    (hk : d₂.config.objectId = d₁.config.objectId) :
    (∃ e, mapGet (registerEntity s raw₁).1.entities d₁.config.objectId = some e ∧
      e.data = d₁ ∧ e.original = raw₁) ∧
    (∃ e, mapGet (registerEntity (registerEntity s raw₁).1 raw₂).1.entities
        d₁.config.objectId = some e ∧ e.data = d₂ ∧ e.original = raw₂) := by
  refine ⟨registerEntity_lookup s raw₁ d₁ h₁, ?_⟩
  have h := registerEntity_lookup (registerEntity s raw₁).1 raw₂ d₂ h₂
  rwa [hk] at h

/-- C8 (witness): the two concrete announcements of `_temperature`; the
second (renamed) one wins. -/
theorem C8_register_lookup_latest_wins_witness :
    (∃ e, mapGet (registerEntity emptyDeviceState sampleRawEntity).1.entities
        "_temperature" = some e ∧ e.data = sampleData ∧ e.original = sampleRawEntity) ∧
    (∃ e, mapGet (registerEntity (registerEntity emptyDeviceState sampleRawEntity).1
          sampleRawEntity2).1.entities
        "_temperature" = some e ∧ e.data = sampleData2 ∧ e.original = sampleRawEntity2) :=
  C8_register_lookup_latest_wins emptyDeviceState sampleRawEntity sampleRawEntity2
    sampleData sampleData2 rfl rfl rfl

/-- C9: a missing registry entry makes `onEntityState` throw the
``Missing entity`` error, but the `state`-listener boundary installed by
`registerEntity` catches it, so nothing propagates out of the handler;
the same missing entry during a user-originated `onSettings` write for
one of the six driver settings keys rejects the settings request with
the propagated ``Missing entity`` error. -/
theorem C9_missing_entity_boundaries (s : DeviceState) (id : String)
    (state : JsValue) (ns : List (String × JsValue)) (k : String)
    (hid : mapGet s.entities id = none)
    (hk : isDriverSettingKey k = true)
    (hkm : mapGet s.entities k = none) :
    onEntityState s id state = Except.error ("Missing entity " ++ id) ∧
    entityStateHandler s id state = none ∧
    onSettings s ns [k] = Except.error ("Missing entity " ++ k) := by
  have h1 : onEntityState s id state = Except.error ("Missing entity " ++ id) := by
    unfold onEntityState
    rw [hid]
  refine ⟨h1, ?_, ?_⟩
  · unfold entityStateHandler
    rw [h1]
  · unfold onSettings onSettingsLoop
    rw [hk, hkm]
    rfl

/-- C9 (witness): dispatch and settings write for an identifier absent
from the empty registry. -/
theorem C9_missing_entity_boundaries_witness :
    onEntityState emptyDeviceState "mmwave_led" JsValue.null =
      Except.error "Missing entity mmwave_led" ∧
    entityStateHandler emptyDeviceState "mmwave_led" JsValue.null = none ∧
    onSettings emptyDeviceState [("mmwave_led", JsValue.bool true)] ["mmwave_led"] =
      Except.error "Missing entity mmwave_led" :=
  C9_missing_entity_boundaries emptyDeviceState "mmwave_led" JsValue.null
    [("mmwave_led", JsValue.bool true)] "mmwave_led" rfl rfl rfl

/-- C10: `registerEntity` caches the entry BEFORE probing
`entity.connection`: the concrete payload `badConnRaw` passes the
entity schema but carries a string where a `Connection` instance is
expected, so `registerEntity` throws the connection contract violation
— yet the registry already contains the new entry (with no state
listener subscribed).  Registration is not atomic on this error. -/
theorem C10_register_not_atomic :
    entitySchema_safeParse badConnRaw = some badConnData ∧
    hasConnectionInstance badConnRaw = false ∧
    registerEntity emptyDeviceState badConnRaw =
      ({ entities := [("sensor_badconn",
          { data := badConnData, original := badConnRaw,
            listenerAttached := false })] },
        RegisterOutcome.connectionContractViolation) :=
  ⟨rfl, rfl, rfl⟩
